import Mathlib

/-!
Verification of the NPC3 agent-behavior engine (src/main.js) against its
natural-language specification.

The JavaScript source is shallowly embedded: JS numbers are modelled as
rationals (`ℚ`), `THREE.Vector3` positions as `Point3 := ℚ × ℚ × ℚ`, and the
mutable `npc` object as an explicit `Agent` record threaded through each
operation.  `Vector3.distanceTo` is the Euclidean metric; since its square
root is not rational, the spatial-selector functions are parametrised over
the distance function `dist : P → P → ℚ` (every theorem about them holds for
the Euclidean metric in particular, and concrete witnesses use collinear
points, where the Euclidean distance `|a − b|` is exactly representable),
while single threshold tests such as `distanceTo < 5` are encoded on squared
distances (`dist3sq _ _ < 25`), which is equivalent for the non-negative
Euclidean distance.
-/

namespace NPC3

/-- A world-space position (source: `THREE.Vector3`), coordinates as ℚ. -/
abbrev Point3 : Type := ℚ × ℚ × ℚ

/-- The literal `(0, 0, 0)` written by `npc.lastDangerPos.set(0, 0, 0)`
in `activateHelicopterSearch` (main.js:1679). -/
def origin3 : Point3 := (0, 0, 0)

/-- Squared Euclidean distance between two points.  `a.distanceTo(b) < r`
(with `r ≥ 0`) is encoded as `dist3sq a b < r^2`. -/
def dist3sq (a b : Point3) : ℚ :=
  (a.1 - b.1) * (a.1 - b.1) + (a.2.1 - b.2.1) * (a.2.1 - b.2.1) +
    (a.2.2 - b.2.2) * (a.2.2 - b.2.2)

/-- The category tags stored in `dangerMemory` entries by the three event
handlers that push one (`'gunshots'`, `'scream'`, `'crash'`). -/
inductive DangerCat : Type
  | gunshots : DangerCat
  | scream : DangerCat
  | crash : DangerCat
  deriving DecidableEq, Repr

/-- A danger-memory entry `{ pos, time, type }` (main.js:1737). -/
structure DangerEvent (P : Type) : Type where
  pos : P
  time : ℚ
  cat : DangerCat
  deriving DecidableEq, Repr

/-- The agent's behavior status enum (main.js:370).  `'CAUTIOUS'` is only a
derived display label (main.js:1333) and is never stored in `npc.status`. -/
inductive Status : Type
  | IDLE : Status
  | LOOKING : Status
  | COWERING : Status
  | PANIC : Status
  deriving DecidableEq, Repr

open Status

/-- The fields of the mutable `npc` object (main.js:367-388) that the claims
under verification touch, generic in the position type `P`. -/
structure Agent (P : Type) : Type where
  status : Status
  panicTimer : ℚ
  alertLevel : ℚ
  targetNode : Option P
  lastDangerPos : P
  dangerMemory : List (DangerEvent P)
  fleeAfterHide : Bool
  stuckTime : ℚ
  deriving DecidableEq, Repr

/-! ### Danger memory operations -/

/-- `npc.dangerMemory = npc.dangerMemory.filter(d => now - d.time < 30000)`
(main.js:1341, run each IDLE tick). -/
def pruneMemory {P : Type} (now : ℚ) (mem : List (DangerEvent P)) :
    List (DangerEvent P) :=
  mem.filter (fun d => now - d.time < 30000)

/-- `npc.dangerMemory.push(e); if (npc.dangerMemory.length > 5)
npc.dangerMemory.shift()` (main.js:1737-1738 and the two identical sites). -/
def recordDanger {P : Type} (mem : List (DangerEvent P)) (e : DangerEvent P) :
    List (DangerEvent P) :=
  let m := mem ++ [e]
  if 5 < m.length then m.drop 1 else m

/-! ### Alert-level operations -/

/-- `npc.alertLevel = Math.max(0, npc.alertLevel - dt * 0.05)` (main.js:1337). -/
def idleAlertDecay (a dt : ℚ) : ℚ := max 0 (a - dt * (5 / 100))

/-- `npc.alertLevel = Math.min(1, npc.alertLevel + dt * 0.2)` (main.js:1273). -/
def lookingAlertRise (a dt : ℚ) : ℚ := min 1 (a + dt * (2 / 10))

/-- `npc.alertLevel = Math.max(0.7, npc.alertLevel)` (main.js:1193). -/
def coweringAlertFloor (a : ℚ) : ℚ := max (7 / 10) a

/-- `npc.alertLevel = 1` (main.js:1072, PANIC state). -/
def panicAlertSet : ℚ := 1

/-- `npc.alertLevel = Math.min(1, npc.alertLevel + boost)`: the event-handler
boosts, with `boost` one of 0.4 (gunshots), 0.25 (scream), 0.5 (crash),
0.15 (running bystander). -/
def eventAlertBoost (a boost : ℚ) : ℚ := min 1 (a + boost)

/-- `recordDanger` appends the new entry and, at capacity, evicts the oldest:
the push/shift pair is equivalent to dropping the head iff the memory already
held 5 entries. -/
theorem recordDanger_eq {P : Type} (mem : List (DangerEvent P)) (e : DangerEvent P) :
    recordDanger mem e = (if mem.length < 5 then mem else mem.drop 1) ++ [e] := by
  unfold recordDanger
  by_cases h : mem.length < 5
  · rw [if_pos h]
    rw [if_neg (by simp only [List.length_append, List.length_singleton]; omega)]
  · rw [if_neg h]
    rw [if_pos (by simp only [List.length_append, List.length_singleton]; omega)]
    rw [List.drop_append_of_le_length (by omega)]

/-! ### C1 — alertLevel and dangerMemory bounds -/

/-- C1: every operation of the source that modifies `alertLevel` maps
`[0,1]` into `[0,1]` (given a non-negative tick delta and boost), and every
operation that modifies `dangerMemory` keeps its length at most 5. -/
theorem alert_memory_bounds_preserved {P : Type} (a dt boost now : ℚ)
    (mem : List (DangerEvent P)) (e : DangerEvent P)
    (ha0 : 0 ≤ a) (ha1 : a ≤ 1) (hdt : 0 ≤ dt) (hb : 0 ≤ boost)
    (hm : mem.length ≤ 5) :
    (0 ≤ idleAlertDecay a dt ∧ idleAlertDecay a dt ≤ 1) ∧
    (0 ≤ lookingAlertRise a dt ∧ lookingAlertRise a dt ≤ 1) ∧
    (0 ≤ coweringAlertFloor a ∧ coweringAlertFloor a ≤ 1) ∧
    (0 ≤ panicAlertSet ∧ panicAlertSet ≤ 1) ∧
    (0 ≤ eventAlertBoost a boost ∧ eventAlertBoost a boost ≤ 1) ∧
    (pruneMemory now mem).length ≤ 5 ∧
    (recordDanger mem e).length ≤ 5 := by
  refine ⟨⟨le_max_left _ _, ?_⟩, ⟨?_, min_le_left _ _⟩,
    ⟨?_, max_le (by norm_num) ha1⟩, ⟨by norm_num [panicAlertSet], le_refl _⟩,
    ⟨?_, min_le_left _ _⟩, ?_, ?_⟩
  · exact max_le (by norm_num) (by nlinarith)
  · exact le_min (by norm_num) (by nlinarith)
  · exact le_trans (by norm_num) (le_max_left _ _)
  · exact le_min (by norm_num) (by nlinarith)
  · exact le_trans (List.length_filter_le _ _) hm
  · rw [recordDanger_eq]
    simp only [List.length_append, List.length_singleton]
    by_cases h : mem.length < 5
    · rw [if_pos h]; omega
    · rw [if_neg h]; simp only [List.length_drop]; omega

/-- Witness for C1 at a concrete input. -/
theorem alert_memory_bounds_preserved_witness :
    (0 ≤ (1 / 2 : ℚ) ∧ (1 / 2 : ℚ) ≤ 1 ∧ 0 ≤ (1 / 10 : ℚ) ∧ 0 ≤ (2 / 5 : ℚ) ∧
      ([] : List (DangerEvent Point3)).length ≤ 5) ∧
    ((0 ≤ idleAlertDecay (1 / 2) (1 / 10) ∧ idleAlertDecay (1 / 2) (1 / 10) ≤ 1) ∧
     (0 ≤ lookingAlertRise (1 / 2) (1 / 10) ∧ lookingAlertRise (1 / 2) (1 / 10) ≤ 1) ∧
     (0 ≤ coweringAlertFloor (1 / 2) ∧ coweringAlertFloor (1 / 2) ≤ 1) ∧
     (0 ≤ panicAlertSet ∧ panicAlertSet ≤ 1) ∧
     (0 ≤ eventAlertBoost (1 / 2) (2 / 5) ∧ eventAlertBoost (1 / 2) (2 / 5) ≤ 1) ∧
     (pruneMemory 0 ([] : List (DangerEvent Point3))).length ≤ 5 ∧
     (recordDanger ([] : List (DangerEvent Point3)) ⟨origin3, 0, .gunshots⟩).length ≤ 5) :=
  ⟨by norm_num,
    alert_memory_bounds_preserved (1 / 2) (1 / 10) (2 / 5) 0 []
      ⟨origin3, 0, .gunshots⟩ (by norm_num) (by norm_num) (by norm_num)
      (by norm_num) (by norm_num)⟩

/-! ### Chaos-director event handlers

Each handler is embedded as its effect on the `npc` record; spawning of
physics bodies, lights and sounds are external side effects outside the
agent state.  Randomly computed positions and `Math.random()` draws are
passed in as parameters. -/

/-- `spawnFlyingCar` NPC reaction (main.js:1517-1520): sets `lastDangerPos`
to the car's spawn position, forces PANIC with a 10s timer.  No
`dangerMemory` push occurs in this handler. -/
def spawnFlyingCar (carPos : Point3) (s : Agent Point3) : Agent Point3 :=
  { s with
    lastDangerPos := carPos
    status := PANIC
    panicTimer := 10
    targetNode := none }

/-- `spawnExplosion` NPC reaction (main.js:1586-1589). -/
def spawnExplosion (expPos : Point3) (s : Agent Point3) : Agent Point3 :=
  { s with
    lastDangerPos := expPos
    status := PANIC
    panicTimer := 12
    targetNode := none }

/-- `spawnFallingDebris` NPC reaction (main.js:1625-1626): `dangerPos` is
`(npc.x, 20, npc.z)`; the handler sets LOOKING at fire time. -/
def spawnFallingDebris (dangerPos : Point3) (s : Agent Point3) : Agent Point3 :=
  { s with lastDangerPos := dangerPos, status := LOOKING }

/-- The 1s-delayed follow-up of `spawnFallingDebris` (main.js:1628-1634). -/
def debrisDelayed (s : Agent Point3) : Agent Point3 :=
  if s.status = LOOKING then
    { s with status := PANIC, panicTimer := 8, targetNode := none }
  else s

/-- `activateHelicopterSearch` fire-time NPC effect (main.js:1637-1680):
returns immediately when the `heliLight` scene object is missing
(`hasLight = false`); otherwise, after starting the sweep interval, it
unconditionally sets LOOKING and `lastDangerPos = (0,0,0)`. -/
def activateHelicopterSearch (hasLight : Bool) (s : Agent Point3) : Agent Point3 :=
  if hasLight then { s with status := LOOKING, lastDangerPos := origin3 }
  else s

/-- One tick of the helicopter sweep interval (main.js:1658-1668):
`npcGround` is `(npc.x, 0, npc.z)` and `lightPos` the searchlight target;
`distanceTo < 5` is encoded as squared distance `< 25`. -/
def heliSweepTick (npcGround lightPos : Point3) (s : Agent Point3) : Agent Point3 :=
  if dist3sq npcGround lightPos < 25 ∧ s.status = IDLE then
    { s with status := COWERING, panicTimer := 3, lastDangerPos := lightPos }
  else s

/-- `spawnGunshots` NPC reaction (main.js:1720-1738): `r` is the
`Math.random()` draw for the panic-timer jitter, `now` the wall-clock stamp.
The source's `status === 'CAUTIOUS'` disjunct is dead code: `'CAUTIOUS'` is
never stored in `npc.status`, so the embedding tests IDLE alone. -/
def spawnGunshots (shotPos : Point3) (r now : ℚ) (s : Agent Point3) : Agent Point3 :=
  let s1 : Agent Point3 := { s with
    lastDangerPos := shotPos
    alertLevel := eventAlertBoost s.alertLevel (4 / 10) }
  let s2 : Agent Point3 :=
    if s1.status = IDLE then
      { s1 with status := PANIC, panicTimer := 8 + r * 6, targetNode := none }
    else if s1.status = COWERING then
      { s1 with panicTimer := s1.panicTimer + 4 }
    else s1
  { s2 with dangerMemory := recordDanger s2.dangerMemory ⟨shotPos, now, .gunshots⟩ }

/-- `spawnScreaming` NPC reaction (main.js:1754-1772); the memory push
happens regardless of status. -/
def spawnScreaming (screamPos : Point3) (now : ℚ) (s : Agent Point3) : Agent Point3 :=
  let s1 : Agent Point3 := { s with
    lastDangerPos := screamPos
    alertLevel := eventAlertBoost s.alertLevel (1 / 4) }
  let s2 : Agent Point3 :=
    if s1.status = IDLE then { s1 with status := LOOKING, panicTimer := 3 }
    else s1
  { s2 with dangerMemory := recordDanger s2.dangerMemory ⟨screamPos, now, .scream⟩ }

/-- The 1.5s-delayed follow-up of `spawnScreaming` (main.js:1762-1768):
`go` is the outcome of `Math.random() > 0.4`, `r` the timer jitter draw. -/
def screamDelayed (go : Bool) (r : ℚ) (s : Agent Point3) : Agent Point3 :=
  if s.status = LOOKING ∧ go then
    { s with status := PANIC, panicTimer := 6 + r * 4, targetNode := none }
  else s

/-- `spawnCarCrash` NPC reaction (main.js:1834-1842). -/
def spawnCarCrash (crashPos : Point3) (r now : ℚ) (s : Agent Point3) : Agent Point3 :=
  { s with
    lastDangerPos := crashPos
    alertLevel := eventAlertBoost s.alertLevel (1 / 2)
    status := PANIC
    panicTimer := 10 + r * 5
    targetNode := none
    dangerMemory := recordDanger s.dangerMemory ⟨crashPos, now, .crash⟩ }

/-- `spawnRunningPerson` NPC reaction (main.js:1886-1892): no memory push. -/
def spawnRunningPerson (runnerPos : Point3) (s : Agent Point3) : Agent Point3 :=
  let s1 : Agent Point3 := { s with
    lastDangerPos := runnerPos
    alertLevel := eventAlertBoost s.alertLevel (3 / 20) }
  if s1.status = IDLE then { s1 with status := LOOKING, panicTimer := 2 }
  else s1

/-- The 1s-delayed follow-up of `spawnRunningPerson` (main.js:1895-1901). -/
def runnerDelayed (go : Bool) (s : Agent Point3) : Agent Point3 :=
  if s.status = LOOKING ∧ go then
    { s with status := PANIC, panicTimer := 5, targetNode := none }
  else s

/-- A concrete agent state used by counterexamples: IDLE, empty memory. -/
def idleAgent : Agent Point3 :=
  { status := IDLE
    panicTimer := 0
    alertLevel := 0
    targetNode := none
    lastDangerPos := origin3
    dangerMemory := []
    fleeAfterHide := false
    stuckTime := 0 }

/-! ### C10 — helicopter fire-time override -/

/-- C10: with the searchlight present, `activateHelicopterSearch`
unconditionally sets LOOKING and `lastDangerPos = (0,0,0)` at fire time,
whatever the previous status, touching no other agent field; with the
searchlight missing it changes no agent state at all. -/
theorem heli_fire_override (s : Agent Point3) :
    ((activateHelicopterSearch true s).status = LOOKING ∧
     (activateHelicopterSearch true s).lastDangerPos = origin3 ∧
     (activateHelicopterSearch true s).panicTimer = s.panicTimer ∧
     (activateHelicopterSearch true s).alertLevel = s.alertLevel ∧
     (activateHelicopterSearch true s).targetNode = s.targetNode ∧
     (activateHelicopterSearch true s).dangerMemory = s.dangerMemory ∧
     (activateHelicopterSearch true s).fleeAfterHide = s.fleeAfterHide) ∧
    activateHelicopterSearch false s = s := by
  simp [activateHelicopterSearch]

/-! ### C5 — which handlers report into Danger Memory -/

/-- C5 counterexample: the flying-vehicle handler records no Danger Memory
entry at all — after it runs on an agent with empty memory, no entry with
the event's danger position exists. -/
theorem flying_car_memory_unreported :
    (spawnFlyingCar (3, 1, -40) idleAgent).dangerMemory = [] ∧
    ¬ ∃ e ∈ (spawnFlyingCar (3, 1, -40) idleAgent).dangerMemory,
        e.pos = ((3 : ℚ), (1 : ℚ), (-40 : ℚ)) := by
  constructor
  · rfl
  · rintro ⟨e, he, -⟩
    simp [spawnFlyingCar, idleAgent] at he

/-- C5 amended: all eight handlers store the computed danger position in
`lastDangerPos` (the aerial-search one stores the origin), but only the
gunfire, distant-scream and vehicle-collision handlers append a Danger
Memory entry (evicting the oldest at capacity 5); flying-vehicle,
explosion, falling-debris, aerial-search and running-bystander leave
`dangerMemory` unchanged. -/
theorem danger_reporting_amended
    (carPos expPos debPos shotPos screamPos crashPos runnerPos : Point3)
    (r now : ℚ) (s : Agent Point3) :
    ((spawnFlyingCar carPos s).dangerMemory = s.dangerMemory ∧
     (spawnFlyingCar carPos s).lastDangerPos = carPos) ∧
    ((spawnExplosion expPos s).dangerMemory = s.dangerMemory ∧
     (spawnExplosion expPos s).lastDangerPos = expPos) ∧
    ((spawnFallingDebris debPos s).dangerMemory = s.dangerMemory ∧
     (spawnFallingDebris debPos s).lastDangerPos = debPos) ∧
    ((activateHelicopterSearch true s).dangerMemory = s.dangerMemory ∧
     (activateHelicopterSearch true s).lastDangerPos = origin3) ∧
    ((spawnGunshots shotPos r now s).dangerMemory =
       (if s.dangerMemory.length < 5 then s.dangerMemory
        else s.dangerMemory.drop 1) ++ [⟨shotPos, now, .gunshots⟩] ∧
     (spawnGunshots shotPos r now s).lastDangerPos = shotPos) ∧
    ((spawnScreaming screamPos now s).dangerMemory =
       (if s.dangerMemory.length < 5 then s.dangerMemory
        else s.dangerMemory.drop 1) ++ [⟨screamPos, now, .scream⟩] ∧
     (spawnScreaming screamPos now s).lastDangerPos = screamPos) ∧
    ((spawnCarCrash crashPos r now s).dangerMemory =
       (if s.dangerMemory.length < 5 then s.dangerMemory
        else s.dangerMemory.drop 1) ++ [⟨crashPos, now, .crash⟩] ∧
     (spawnCarCrash crashPos r now s).lastDangerPos = crashPos) ∧
    ((spawnRunningPerson runnerPos s).dangerMemory = s.dangerMemory ∧
     (spawnRunningPerson runnerPos s).lastDangerPos = runnerPos) := by
  have hg : (spawnGunshots shotPos r now s).dangerMemory =
      recordDanger s.dangerMemory ⟨shotPos, now, .gunshots⟩ := by
    unfold spawnGunshots; dsimp only; split_ifs <;> rfl
  have hgl : (spawnGunshots shotPos r now s).lastDangerPos = shotPos := by
    unfold spawnGunshots; dsimp only; split_ifs <;> rfl
  have hs : (spawnScreaming screamPos now s).dangerMemory =
      recordDanger s.dangerMemory ⟨screamPos, now, .scream⟩ := by
    unfold spawnScreaming; dsimp only; split_ifs <;> rfl
  have hsl : (spawnScreaming screamPos now s).lastDangerPos = screamPos := by
    unfold spawnScreaming; dsimp only; split_ifs <;> rfl
  have hrm : (spawnRunningPerson runnerPos s).dangerMemory = s.dangerMemory := by
    unfold spawnRunningPerson; dsimp only; split_ifs <;> rfl
  have hrl : (spawnRunningPerson runnerPos s).lastDangerPos = runnerPos := by
    unfold spawnRunningPerson; dsimp only; split_ifs <;> rfl
  refine ⟨⟨rfl, rfl⟩, ⟨rfl, rfl⟩, ⟨rfl, rfl⟩, ⟨rfl, rfl⟩,
    ⟨hg.trans (recordDanger_eq _ _), hgl⟩,
    ⟨hs.trans (recordDanger_eq _ _), hsl⟩, ⟨?_, rfl⟩, ⟨hrm, hrl⟩⟩
  show recordDanger s.dangerMemory ⟨crashPos, now, .crash⟩ = _
  exact recordDanger_eq _ _

/-- Length of the memory after `recordDanger`: one more entry up to the
capacity of 5, at which point the oldest is evicted instead. -/
theorem recordDanger_length {P : Type} (mem : List (DangerEvent P))
    (e : DangerEvent P) (hm : mem.length ≤ 5) :
    (recordDanger mem e).length = min (mem.length + 1) 5 := by
  rw [recordDanger_eq]
  simp only [List.length_append, List.length_singleton]
  by_cases h : mem.length < 5
  · rw [if_pos h]; omega
  · rw [if_neg h]; simp only [List.length_drop]; omega

/-! ### C8 — gunfire override -/

/-- Five concrete memory entries (a memory at capacity). -/
def memFive : List (DangerEvent Point3) :=
  [⟨(1, 0, 0), 0, .crash⟩, ⟨(2, 0, 0), 1, .crash⟩, ⟨(3, 0, 0), 2, .crash⟩,
   ⟨(4, 0, 0), 3, .crash⟩, ⟨(5, 0, 0), 4, .crash⟩]

/-- An IDLE agent whose danger memory is already at capacity 5. -/
def idleAgentFullMem : Agent Point3 := { idleAgent with dangerMemory := memFive }

/-- C8 counterexample: a gunfire event on an IDLE agent whose memory is at
capacity leaves `dangerMemory.length` at 5; it does not increase by 1. -/
theorem gunfire_at_capacity_not_incremented :
    idleAgentFullMem.status = IDLE ∧
    (spawnGunshots (20, 1, 0) (1 / 2) 5 idleAgentFullMem).dangerMemory.length ≠
      idleAgentFullMem.dangerMemory.length + 1 := by decide

/-- C8 amended: gunfire on an IDLE agent forces PANIC immediately with
`panicTimer ∈ [8,14]`, and on a COWERING agent adds exactly 4 seconds to
`panicTimer` while the status stays COWERING; in both cases the danger
memory grows by one entry only below capacity — at 5 entries the oldest is
evicted and the length stays 5. -/
theorem gunfire_override_amended (shotPos : Point3) (r now : ℚ)
    (s : Agent Point3) (hr0 : 0 ≤ r) (hr1 : r < 1)
    (hm : s.dangerMemory.length ≤ 5) :
    (s.status = IDLE →
      (spawnGunshots shotPos r now s).status = PANIC ∧
      8 ≤ (spawnGunshots shotPos r now s).panicTimer ∧
      (spawnGunshots shotPos r now s).panicTimer ≤ 14 ∧
      (spawnGunshots shotPos r now s).dangerMemory.length =
        min (s.dangerMemory.length + 1) 5) ∧
    (s.status = COWERING →
      (spawnGunshots shotPos r now s).status = COWERING ∧
      (spawnGunshots shotPos r now s).panicTimer = s.panicTimer + 4 ∧
      (spawnGunshots shotPos r now s).dangerMemory.length =
        min (s.dangerMemory.length + 1) 5) := by
  have hmem : (spawnGunshots shotPos r now s).dangerMemory =
      recordDanger s.dangerMemory ⟨shotPos, now, .gunshots⟩ := by
    unfold spawnGunshots; dsimp only; split_ifs <;> rfl
  constructor
  · intro h
    have hst : (spawnGunshots shotPos r now s).status = PANIC := by
      unfold spawnGunshots; dsimp only; rw [h]; rfl
    have hpt : (spawnGunshots shotPos r now s).panicTimer = 8 + r * 6 := by
      unfold spawnGunshots; dsimp only; rw [h]; rfl
    refine ⟨hst, ?_, ?_, ?_⟩
    · rw [hpt]; nlinarith
    · rw [hpt]; nlinarith
    · rw [hmem]; exact recordDanger_length _ _ hm
  · intro h
    have hst : (spawnGunshots shotPos r now s).status = COWERING := by
      unfold spawnGunshots; dsimp only; rw [h]; rfl
    have hpt : (spawnGunshots shotPos r now s).panicTimer = s.panicTimer + 4 := by
      unfold spawnGunshots; dsimp only; rw [h]; rfl
    refine ⟨hst, hpt, ?_⟩
    rw [hmem]; exact recordDanger_length _ _ hm

/-- Witness for C8 (amended) at a concrete input. -/
theorem gunfire_override_amended_witness :
    (0 ≤ (1 / 2 : ℚ) ∧ (1 / 2 : ℚ) < 1 ∧ idleAgent.dangerMemory.length ≤ 5) ∧
    ((idleAgent.status = IDLE →
      (spawnGunshots (20, 1, 0) (1 / 2) 0 idleAgent).status = PANIC ∧
      8 ≤ (spawnGunshots (20, 1, 0) (1 / 2) 0 idleAgent).panicTimer ∧
      (spawnGunshots (20, 1, 0) (1 / 2) 0 idleAgent).panicTimer ≤ 14 ∧
      (spawnGunshots (20, 1, 0) (1 / 2) 0 idleAgent).dangerMemory.length =
        min (idleAgent.dangerMemory.length + 1) 5) ∧
     (idleAgent.status = COWERING →
      (spawnGunshots (20, 1, 0) (1 / 2) 0 idleAgent).status = COWERING ∧
      (spawnGunshots (20, 1, 0) (1 / 2) 0 idleAgent).panicTimer =
        idleAgent.panicTimer + 4 ∧
      (spawnGunshots (20, 1, 0) (1 / 2) 0 idleAgent).dangerMemory.length =
        min (idleAgent.dangerMemory.length + 1) 5)) :=
  ⟨by refine ⟨by norm_num, by norm_num, by decide⟩,
    gunfire_override_amended (20, 1, 0) (1 / 2) 0 idleAgent (by norm_num)
      (by norm_num) (by decide)⟩

/-! ### Behavior state machine steps (for the transition closure) -/

/-- The panic-timer countdown and expiry in `updateNPC` (main.js:1024-1040);
`r` is the `Math.random()` draw for the post-hide flee timer. -/
def timerExpiryStep (dt r : ℚ) (s : Agent Point3) : Agent Point3 :=
  if s.status = PANIC ∨ s.status = COWERING then
    let t := s.panicTimer - dt
    if t ≤ 0 then
      if s.status = COWERING then
        { s with
          status := PANIC
          fleeAfterHide := true
          panicTimer := 5 + r * 5
          targetNode := none }
      else
        { s with
          status := IDLE
          fleeAfterHide := false
          targetNode := none
          panicTimer := t }
    else { s with panicTimer := t }
  else s

/-- The cover-arrival transition of `handlePanicState` (main.js:1168-1181):
fires when a target node is set and the agent is within 1.5 units of it
(`arrived`); `r` is the draw for the fresh cowering timer. -/
def panicArrivalStep (arrived : Bool) (r : ℚ) (s : Agent Point3) : Agent Point3 :=
  if s.status = PANIC ∧ s.targetNode ≠ none ∧ arrived then
    if s.fleeAfterHide then
      { s with
        status := IDLE
        fleeAfterHide := false
        targetNode := none
        panicTimer := 0 }
    else
      { s with
        status := COWERING
        targetNode := none
        panicTimer := 6 + r * 6 }
  else s

/-- The probabilistic decision of `handleLookingState` (main.js:1316-1327):
`pos` is the agent position, `roll1`/`roll2` the two `Math.random()` draws,
`r` the panic-timer jitter; `distanceTo < 12` and `< 10` are encoded on
squared distances. -/
def lookingDecisionStep (pos : Point3) (roll1 roll2 r : ℚ)
    (s : Agent Point3) : Agent Point3 :=
  if s.status = LOOKING then
    let panicChance : ℚ := 8 / 1000 + (s.dangerMemory.length : ℚ) * (4 / 1000) +
      (if dist3sq pos s.lastDangerPos < 144 then 1 / 100 else 0)
    if roll1 < panicChance then
      if roll2 > 35 / 100 ∨ dist3sq pos s.lastDangerPos < 100 then
        { s with
          status := PANIC
          panicTimer := 8 + r * 4
          targetNode := none }
      else { s with status := IDLE }
    else s
  else s

/-! ### C2 — transition closure -/

/-- The transition edges of spec §4.2 as the claim reads them: into PANIC or
LOOKING from anywhere (danger-event override), LOOKING back to IDLE, PANIC
to IDLE or COWERING, and staying put; COWERING is entered from PANIC only —
never directly from IDLE. -/
def claimedEdge : Status → Status → Bool
  | _, PANIC => true
  | _, LOOKING => true
  | LOOKING, IDLE => true
  | PANIC, IDLE => true
  | PANIC, COWERING => true
  | a, b => a == b

/-- The claimed edge set plus the one edge the code actually contains in
addition: the helicopter-sweep force transition IDLE → COWERING. -/
def amendedEdge : Status → Status → Bool
  | IDLE, COWERING => true
  | a, b => claimedEdge a b

/-- C2 counterexample: one tick of the helicopter sweep with the sweeping
point within 5 units of an IDLE agent sets the status directly to COWERING,
an edge outside the claimed §4.2 edge set. -/
theorem heli_sweep_forces_idle_to_cowering :
    idleAgent.status = IDLE ∧
    (heliSweepTick (0, 0, 0) (1, 0, 0) idleAgent).status = COWERING ∧
    claimedEdge IDLE COWERING = false := by
  refine ⟨rfl, ?_, rfl⟩
  have h : dist3sq ((0 : ℚ), (0 : ℚ), (0 : ℚ)) (1, 0, 0) < 25 ∧
      idleAgent.status = IDLE := ⟨by norm_num [dist3sq], rfl⟩
  unfold heliSweepTick
  rw [if_pos h]

/-- C2 amended: every status change performed by the code — timer expiry,
panic arrival, the LOOKING decision, and all eight event handlers with
their delayed follow-ups — moves along the §4.2 edges, except the
helicopter sweep, which additionally forces IDLE → COWERING when its
sweeping point comes within 5 units of the agent. -/
theorem transition_closure_amended (dt r roll1 roll2 : ℚ) (arrived go : Bool)
    (pos npcG lightP carPos expPos debPos shotPos screamPos crashPos
      runnerPos : Point3) (now : ℚ) (s : Agent Point3) :
    claimedEdge s.status (timerExpiryStep dt r s).status = true ∧
    claimedEdge s.status (panicArrivalStep arrived r s).status = true ∧
    claimedEdge s.status (lookingDecisionStep pos roll1 roll2 r s).status = true ∧
    claimedEdge s.status (spawnFlyingCar carPos s).status = true ∧
    claimedEdge s.status (spawnExplosion expPos s).status = true ∧
    claimedEdge s.status (spawnFallingDebris debPos s).status = true ∧
    claimedEdge s.status (debrisDelayed s).status = true ∧
    claimedEdge s.status (activateHelicopterSearch true s).status = true ∧
    claimedEdge s.status (activateHelicopterSearch false s).status = true ∧
    claimedEdge s.status (spawnGunshots shotPos r now s).status = true ∧
    claimedEdge s.status (spawnScreaming screamPos now s).status = true ∧
    claimedEdge s.status (screamDelayed go r s).status = true ∧
    claimedEdge s.status (spawnCarCrash crashPos r now s).status = true ∧
    claimedEdge s.status (spawnRunningPerson runnerPos s).status = true ∧
    claimedEdge s.status (runnerDelayed go s).status = true ∧
    amendedEdge s.status (heliSweepTick npcG lightP s).status = true := by
  obtain ⟨st, pt, al, tn, ld, dm, fa, stk⟩ := s
  refine ⟨?_, ?_, ?_, ?_, ?_, ?_, ?_, ?_, ?_, ?_, ?_, ?_, ?_, ?_, ?_, ?_⟩ <;>
    cases st <;>
    simp only [timerExpiryStep, panicArrivalStep, lookingDecisionStep,
      spawnFlyingCar, spawnExplosion, spawnFallingDebris, debrisDelayed,
      activateHelicopterSearch, heliSweepTick, spawnGunshots, spawnScreaming,
      screamDelayed, spawnCarCrash, spawnRunningPerson, runnerDelayed] <;>
    first
      | rfl
      | (split_ifs <;> first | rfl | simp_all)

/-! ### Spatial selector

`getSafeNode`/`getFarSafeNode` (main.js:861-946) compare and combine
Euclidean distances, so they are embedded parametrically in the distance
function `dist : P → P → ℚ`; the JS `let best = l[0]; let bestScore =
Infinity or -Infinity; for (c of l) ...` loops become folds over
`P × WithTop ℚ` (resp. `P × WithBot ℚ`). -/

/-- `for (c of l) if (score(c) < acc.2) acc = (c, score(c))`, with the
running best score in `WithTop ℚ` so that the JS `Infinity` initialiser is
representable as `⊤`. -/
def minLoop {P : Type} (score : P → ℚ) (l : List P) (acc : P × WithTop ℚ) :
    P × WithTop ℚ :=
  l.foldl (fun a c =>
    if (score c : WithTop ℚ) < a.2 then (c, (score c : WithTop ℚ)) else a) acc

/-- `for (c of l) if (acc.2 < score(c)) acc = (c, score(c))`, with the
running best in `WithBot ℚ` (`-Infinity` is `⊥`; `getSafeNode`'s final
fallback initialises it with 0 instead). -/
def maxLoop {P : Type} (score : P → ℚ) (l : List P) (acc : P × WithBot ℚ) :
    P × WithBot ℚ :=
  l.foldl (fun a c =>
    if a.2 < (score c : WithBot ℚ) then (c, (score c : WithBot ℚ)) else a) acc

/-- Invariant of the strict-improvement min fold: either no element beat the
initial score (result unchanged, every element scores at least `v`), or the
result is a member of the list achieving the minimum score. -/
theorem minLoop_spec {P : Type} (score : P → ℚ) (l : List P) (b : P)
    (v : WithTop ℚ) :
    (minLoop score l (b, v) = (b, v) ∧ ∀ c ∈ l, v ≤ (score c : WithTop ℚ)) ∨
    ((minLoop score l (b, v)).1 ∈ l ∧
     (minLoop score l (b, v)).2 = (score (minLoop score l (b, v)).1 : WithTop ℚ) ∧
     (minLoop score l (b, v)).2 ≤ v ∧
     ∀ c ∈ l, (minLoop score l (b, v)).2 ≤ (score c : WithTop ℚ)) := by
  induction l generalizing b v with
  | nil =>
    left
    exact ⟨rfl, fun c hc => absurd hc (List.not_mem_nil c)⟩
  | cons c t ih =>
    have hstep : minLoop score (c :: t) (b, v) =
        minLoop score t
          (if (score c : WithTop ℚ) < v then (c, (score c : WithTop ℚ))
           else (b, v)) := rfl
    by_cases hc : (score c : WithTop ℚ) < v
    · rw [hstep, if_pos hc]
      rcases ih c (score c : WithTop ℚ) with ⟨heq, hall⟩ | ⟨hmem, hval, hle, hall⟩
      · right
        rw [heq]
        refine ⟨List.mem_cons_self _ _, rfl, le_of_lt hc, ?_⟩
        intro x hx
        rcases List.mem_cons.1 hx with rfl | hx'
        · exact le_refl _
        · exact hall x hx'
      · right
        refine ⟨List.mem_cons_of_mem _ hmem, hval, le_trans hle (le_of_lt hc), ?_⟩
        intro x hx
        rcases List.mem_cons.1 hx with rfl | hx'
        · exact hle
        · exact hall x hx'
    · rw [hstep, if_neg hc]
      push_neg at hc
      rcases ih b v with ⟨heq, hall⟩ | ⟨hmem, hval, hle, hall⟩
      · left
        refine ⟨heq, ?_⟩
        intro x hx
        rcases List.mem_cons.1 hx with rfl | hx'
        · exact hc
        · exact hall x hx'
      · right
        refine ⟨List.mem_cons_of_mem _ hmem, hval, hle, ?_⟩
        intro x hx
        rcases List.mem_cons.1 hx with rfl | hx'
        · exact le_trans hle hc
        · exact hall x hx'

/-- Invariant of the strict-improvement max fold, including first-maximality:
either nothing beat the initial score, or the list splits around the result,
with everything before it scoring strictly less and everything after it at
most as much. -/
theorem maxLoop_first_spec {P : Type} (score : P → ℚ) (l : List P) (b : P)
    (v : WithBot ℚ) :
    (maxLoop score l (b, v) = (b, v) ∧ ∀ c ∈ l, (score c : WithBot ℚ) ≤ v) ∨
    (∃ l1 l2, l = l1 ++ (maxLoop score l (b, v)).1 :: l2 ∧
      (maxLoop score l (b, v)).2 = (score (maxLoop score l (b, v)).1 : WithBot ℚ) ∧
      v < (maxLoop score l (b, v)).2 ∧
      (∀ x ∈ l1, (score x : WithBot ℚ) < (maxLoop score l (b, v)).2) ∧
      (∀ x ∈ l2, (score x : WithBot ℚ) ≤ (maxLoop score l (b, v)).2)) := by
  induction l generalizing b v with
  | nil =>
    left
    exact ⟨rfl, fun c hc => absurd hc (List.not_mem_nil c)⟩
  | cons c t ih =>
    have hstep : maxLoop score (c :: t) (b, v) =
        maxLoop score t
          (if v < (score c : WithBot ℚ) then (c, (score c : WithBot ℚ))
           else (b, v)) := rfl
    by_cases hc : v < (score c : WithBot ℚ)
    · rw [hstep, if_pos hc]
      rcases ih c (score c : WithBot ℚ) with ⟨heq, hall⟩ |
        ⟨l1, l2, hsplit, hval, hlt, h1, h2⟩
      · right
        refine ⟨[], t, ?_, ?_, ?_, ?_, ?_⟩
        · rw [heq]; rfl
        · rw [heq]
        · rw [heq]; exact hc
        · intro x hx; exact absurd hx (List.not_mem_nil x)
        · intro x hx; rw [heq]; exact hall x hx
      · right
        refine ⟨c :: l1, l2, ?_, hval, lt_trans hc hlt, ?_, h2⟩
        · rw [List.cons_append, ← hsplit]
        · intro x hx
          rcases List.mem_cons.1 hx with rfl | hx'
          · exact hlt
          · exact h1 x hx'
    · rw [hstep, if_neg hc]
      push_neg at hc
      rcases ih b v with ⟨heq, hall⟩ | ⟨l1, l2, hsplit, hval, hlt, h1, h2⟩
      · left
        refine ⟨heq, ?_⟩
        intro x hx
        rcases List.mem_cons.1 hx with rfl | hx'
        · exact hc
        · exact hall x hx'
      · right
        refine ⟨c :: l1, l2, ?_, hval, hlt, ?_, h2⟩
        · rw [List.cons_append, ← hsplit]
        · intro x hx
          rcases List.mem_cons.1 hx with rfl | hx'
          · exact lt_of_le_of_lt hc hlt
          · exact h1 x hx'

/-- A min fold started from `Infinity` over a list containing its initial
element returns a member of the list minimising the score. -/
theorem minLoop_top_argmin {P : Type} (score : P → ℚ) (c : P) (l : List P)
    (hl : c ∈ l) :
    (minLoop score l (c, ⊤)).1 ∈ l ∧
    ∀ x ∈ l, score (minLoop score l (c, ⊤)).1 ≤ score x := by
  rcases minLoop_spec score l c ⊤ with ⟨heq, hall⟩ | ⟨hmem, hval, hle, hall⟩
  · exact absurd (hall c hl) (by simp)
  · refine ⟨hmem, fun x hx => ?_⟩
    have h := hall x hx
    rw [hval] at h
    exact_mod_cast h

/-- The `getSafeNode` final fallback (`maxDist = 0` initialiser): with
non-negative scores the fold returns the first maximal element. -/
theorem maxLoop_zero_first_argmax {P : Type} (score : P → ℚ) (n : P)
    (t : List P) (hscore : ∀ x ∈ n :: t, 0 ≤ score x) :
    ∃ l1 l2,
      n :: t = l1 ++ (maxLoop score (n :: t) (n, ((0 : ℚ) : WithBot ℚ))).1 :: l2 ∧
      (∀ x ∈ l1,
        score x < score (maxLoop score (n :: t) (n, ((0 : ℚ) : WithBot ℚ))).1) ∧
      ∀ x ∈ n :: t,
        score x ≤ score (maxLoop score (n :: t) (n, ((0 : ℚ) : WithBot ℚ))).1 := by
  rcases maxLoop_first_spec score (n :: t) n ((0 : ℚ) : WithBot ℚ) with
    ⟨heq, hall⟩ | ⟨l1, l2, hsplit, hval, hlt, h1, h2⟩
  · refine ⟨[], t, ?_, ?_, ?_⟩
    · rw [heq]; rfl
    · intro x hx; exact absurd hx (List.not_mem_nil x)
    · intro x hx
      rw [heq]
      have hx0 : score x ≤ 0 := by exact_mod_cast hall x hx
      have hn0 : score n ≤ 0 := by
        exact_mod_cast hall n (List.mem_cons_self _ _)
      have := hscore n (List.mem_cons_self _ _)
      linarith [hscore x hx]
  · rw [hval] at hlt h1 h2
    refine ⟨l1, l2, hsplit, ?_, ?_⟩
    · intro x hx
      exact_mod_cast h1 x hx
    · intro x hx
      rw [hsplit] at hx
      rcases List.mem_append.1 hx with hx1 | hx2
      · exact le_of_lt (by exact_mod_cast h1 x hx1)
      · rcases List.mem_cons.1 hx2 with rfl | hx3
        · exact le_refl _
        · exact_mod_cast h2 x hx3

/-- `getSafeNode(dangerPos, npcPos)` (main.js:861-909), parametric in the
distance function.  The trailing random-pick branch (main.js:908) is dead
when `npcPos` is supplied, which it is at both call sites, so the embedding
takes the agent position as always present. -/
def getSafeNode {P : Type} (dist : P → P → ℚ) (dangerPos npcPos : P)
    (coverSpots navNodes : List P) : Option P :=
  match coverSpots.filter (fun s => 8 < dist s dangerPos) with
  | c :: rest =>
    some (minLoop (fun s => dist s npcPos - dist s dangerPos * (5 / 10))
      (c :: rest) (c, ⊤)).1
  | [] =>
    match navNodes.filter (fun n => 12 < dist n dangerPos) with
    | [] =>
      match navNodes with
      | [] => none
      | n :: t =>
        some (maxLoop (fun m => dist m dangerPos) (n :: t)
          (n, ((0 : ℚ) : WithBot ℚ))).1
    | n :: rest =>
      some (minLoop (fun m => dist m npcPos) (n :: rest) (n, ⊤)).1

/-- `getFarSafeNode(dangerPos, npcPos)` (main.js:911-946), parametric in the
distance function: candidates are qualifying cover spots followed by
qualifying nav nodes, scored by `distFromDanger − 0.15·distToNpc` (higher
wins); the empty-candidate fallback starts from `-Infinity`. -/
def getFarSafeNode {P : Type} (dist : P → P → ℚ) (dangerPos npcPos : P)
    (coverSpots navNodes : List P) : Option P :=
  match coverSpots.filter (fun s => 8 < dist s dangerPos) ++
      navNodes.filter (fun n => 12 < dist n dangerPos) with
  | [] =>
    match navNodes with
    | [] => none
    | n :: t =>
      some (maxLoop (fun m => dist m dangerPos) (n :: t) (n, ⊥)).1
  | c :: rest =>
    some (maxLoop (fun m => dist m dangerPos - dist m npcPos * (15 / 100))
      (c :: rest) (c, ⊥)).1

/-- A min fold started from `Infinity` over a non-empty list returns a
member of the list minimising the score, whatever the initial element. -/
theorem minLoop_top_mem {P : Type} (score : P → ℚ) (b : P) (l : List P)
    (hl : l ≠ []) :
    (minLoop score l (b, ⊤)).1 ∈ l ∧
    ∀ x ∈ l, score (minLoop score l (b, ⊤)).1 ≤ score x := by
  rcases minLoop_spec score l b ⊤ with ⟨heq, hall⟩ | ⟨hmem, hval, hle, hall⟩
  · cases l with
    | nil => exact absurd rfl hl
    | cons c t => exact absurd (hall c (List.mem_cons_self _ _)) (by simp)
  · refine ⟨hmem, fun x hx => ?_⟩
    have h := hall x hx
    rw [hval] at h
    exact_mod_cast h

/-! ### C3 — getSafeNode characterisation -/

/-- C3: with a non-empty NavNode set (and a non-negative distance function,
as the Euclidean metric is), `getSafeNode` returns a point, and: among cover
spots farther than 8 from the danger it minimises
`distanceToAgent − 0.5·distanceFromDanger`; failing that, among NavNodes
farther than 12 from the danger it is the one closest to the agent; failing
that too, it is the NavNode at maximal distance from the danger, the first
maximal element found winning ties. -/
theorem getSafeNode_spec {P : Type} (dist : P → P → ℚ) (dangerPos npcPos : P)
    (coverSpots navNodes : List P) (hnav : navNodes ≠ [])
    (hd : ∀ a b : P, 0 ≤ dist a b) :
    ∃ r, getSafeNode dist dangerPos npcPos coverSpots navNodes = some r ∧
      (coverSpots.filter (fun s => 8 < dist s dangerPos) ≠ [] →
        r ∈ coverSpots.filter (fun s => 8 < dist s dangerPos) ∧
        ∀ c ∈ coverSpots.filter (fun s => 8 < dist s dangerPos),
          dist r npcPos - dist r dangerPos * (5 / 10) ≤
            dist c npcPos - dist c dangerPos * (5 / 10)) ∧
      (coverSpots.filter (fun s => 8 < dist s dangerPos) = [] →
        navNodes.filter (fun n => 12 < dist n dangerPos) ≠ [] →
        r ∈ navNodes.filter (fun n => 12 < dist n dangerPos) ∧
        ∀ n ∈ navNodes.filter (fun n => 12 < dist n dangerPos),
          dist r npcPos ≤ dist n npcPos) ∧
      (coverSpots.filter (fun s => 8 < dist s dangerPos) = [] →
        navNodes.filter (fun n => 12 < dist n dangerPos) = [] →
        (∃ l1 l2, navNodes = l1 ++ r :: l2 ∧
          ∀ x ∈ l1, dist x dangerPos < dist r dangerPos) ∧
        ∀ x ∈ navNodes, dist x dangerPos ≤ dist r dangerPos) := by
  cases hcov : coverSpots.filter (fun s => 8 < dist s dangerPos) with
  | cons c rest =>
    refine ⟨(minLoop (fun s => dist s npcPos - dist s dangerPos * (5 / 10))
        (c :: rest) (c, ⊤)).1, ?_, ?_, ?_, ?_⟩
    · unfold getSafeNode
      rw [hcov]
    · intro _
      exact minLoop_top_mem _ c (c :: rest) (List.cons_ne_nil _ _)
    · intro h
      exact absurd h (List.cons_ne_nil _ _)
    · intro h
      exact absurd h (List.cons_ne_nil _ _)
  | nil =>
    cases hnodes : navNodes.filter (fun n => 12 < dist n dangerPos) with
    | cons n rest =>
      refine ⟨(minLoop (fun m => dist m npcPos) (n :: rest) (n, ⊤)).1,
        ?_, ?_, ?_, ?_⟩
      · unfold getSafeNode
        rw [hcov, hnodes]
      · intro h
        exact absurd rfl h
      · intro _ _
        exact minLoop_top_mem _ n (n :: rest) (List.cons_ne_nil _ _)
      · intro _ h
        exact absurd h (List.cons_ne_nil _ _)
    | nil =>
      cases hnn : navNodes with
      | nil => exact absurd hnn hnav
      | cons n t =>
        rw [hnn] at hnodes
        refine ⟨(maxLoop (fun m => dist m dangerPos) (n :: t)
            (n, ((0 : ℚ) : WithBot ℚ))).1, ?_, ?_, ?_, ?_⟩
        · unfold getSafeNode
          rw [hcov, hnodes]
        · intro h
          exact absurd rfl h
        · intro _ h
          exact absurd rfl h
        · intro _ _
          obtain ⟨l1, l2, hsp, h1, h2⟩ :=
            maxLoop_zero_first_argmax (fun m => dist m dangerPos) n t
              (fun x _ => hd x dangerPos)
          exact ⟨⟨l1, l2, hsp, h1⟩, h2⟩

/-- The 1D Euclidean distance `|a − b|` on collinear points, written
branch-explicitly so concrete witness evaluations reduce. -/
def distW (a b : ℚ) : ℚ := if a ≤ b then b - a else a - b

/-- `distW` is non-negative (it is a Euclidean distance). -/
theorem distW_nonneg : ∀ a b : ℚ, 0 ≤ distW a b := by
  intro a b
  unfold distW
  split_ifs with h <;> linarith

/-- Witness for C3 at a concrete input: one nav node at 3, no cover spots,
danger at 0, agent at 1. -/
theorem getSafeNode_spec_witness :
    (([3] : List ℚ) ≠ [] ∧ ∀ a b : ℚ, 0 ≤ distW a b) ∧
    (∃ r, getSafeNode distW 0 1 [] [3] = some r ∧
      (([] : List ℚ).filter (fun s => 8 < distW s 0) ≠ [] →
        r ∈ ([] : List ℚ).filter (fun s => 8 < distW s 0) ∧
        ∀ c ∈ ([] : List ℚ).filter (fun s => 8 < distW s 0),
          distW r 1 - distW r 0 * (5 / 10) ≤ distW c 1 - distW c 0 * (5 / 10)) ∧
      (([] : List ℚ).filter (fun s => 8 < distW s 0) = [] →
        ([3] : List ℚ).filter (fun n => 12 < distW n 0) ≠ [] →
        r ∈ ([3] : List ℚ).filter (fun n => 12 < distW n 0) ∧
        ∀ n ∈ ([3] : List ℚ).filter (fun n => 12 < distW n 0),
          distW r 1 ≤ distW n 1) ∧
      (([] : List ℚ).filter (fun s => 8 < distW s 0) = [] →
        ([3] : List ℚ).filter (fun n => 12 < distW n 0) = [] →
        (∃ l1 l2, ([3] : List ℚ) = l1 ++ r :: l2 ∧
          ∀ x ∈ l1, distW x 0 < distW r 0) ∧
        ∀ x ∈ ([3] : List ℚ), distW x 0 ≤ distW r 0)) :=
  ⟨⟨by simp, distW_nonneg⟩,
    getSafeNode_spec distW 0 1 [] [3] (by simp) distW_nonneg⟩

/-! ### C6 — PANIC target selection -/

/-- The primary-danger computation of `handlePanicState` (main.js:1076-1087):
`primaryDanger` starts as `lastDangerPos`; when the memory is non-empty the
loop (with `closestDist` starting at `Infinity`) replaces it by the
remembered danger position closest to the agent.  Folding over the entry
positions from `(lastDanger, ⊤)` is that loop verbatim (over an empty memory
the fold is the identity, matching the skipped `if`). -/
def nearestDangerPos {P : Type} (dist : P → P → ℚ) (pos : P)
    (mem : List (DangerEvent P)) (lastDanger : P) : P :=
  (minLoop (fun q => dist pos q) (mem.map (fun d => d.pos)) (lastDanger, ⊤)).1

/-- The initial target selection of `handlePanicState` (main.js:1075-1091):
when `targetNode` is unset, select via `getFarSafeNode` if `fleeAfterHide`,
else `getSafeNode`, seeded with the primary danger; otherwise keep the
current target. -/
def panicPickTarget {P : Type} (dist : P → P → ℚ) (pos : P)
    (cover nav : List P) (s : Agent P) : Option P :=
  match s.targetNode with
  | none =>
    if s.fleeAfterHide then
      getFarSafeNode dist
        (nearestDangerPos dist pos s.dangerMemory s.lastDangerPos) pos cover nav
    else
      getSafeNode dist
        (nearestDangerPos dist pos s.dangerMemory s.lastDangerPos) pos cover nav
  | some t => some t

/-- The stuck re-target of `handlePanicState` (main.js:1100-1103): after
more than 1s without progress and with a target set, the new target is
`getSafeNode(npc.lastDangerPos, pos)` — unconditionally the standard
selector, seeded with `lastDangerPos`. -/
def panicRetarget {P : Type} (dist : P → P → ℚ) (pos : P)
    (cover nav : List P) (s : Agent P) : Option P :=
  match s.targetNode with
  | none => s.targetNode
  | some _ =>
    if 1 < s.stuckTime then getSafeNode dist s.lastDangerPos pos cover nav
    else s.targetNode

/-- A concrete PANIC agent, post-hide (`fleeAfterHide`), stuck for 2s, with
one remembered danger at −20 and `lastDangerPos = 100`; the agent sits at 0. -/
def panicAgentW : Agent ℚ :=
  { status := PANIC
    panicTimer := 5
    alertLevel := 1
    targetNode := some 50
    lastDangerPos := 100
    dangerMemory := [⟨-20, 0, .crash⟩]
    fleeAfterHide := true
    stuckTime := 2 }

/-- C6 counterexample: the stuck re-target of a `fleeAfterHide` agent uses
the standard selector seeded with `lastDangerPos` (picking 13), not the
far-flee selector seeded with the nearest remembered danger (which would
pick −200). -/
theorem panic_retarget_not_flee_variant :
    panicRetarget distW 0 [] [-200, 13] panicAgentW = some 13 ∧
    getFarSafeNode distW
      (nearestDangerPos distW 0 panicAgentW.dangerMemory
        panicAgentW.lastDangerPos) 0 [] [-200, 13] = some (-200) ∧
    some (13 : ℚ) ≠ some (-200 : ℚ) := by
  refine ⟨?_, ?_, by norm_num⟩
  · simp only [panicRetarget, panicAgentW, getSafeNode, minLoop, List.filter,
      List.foldl, WithTop.coe_lt_top, WithTop.coe_lt_coe]
    norm_num [distW]
    split_ifs with h
    · rfl
    · refine absurd ?_ h
      simp only [← WithTop.coe_ofNat]
      rw [WithTop.coe_lt_coe]
      norm_num
  · simp only [getFarSafeNode, nearestDangerPos, panicAgentW, minLoop, maxLoop,
      List.filter, List.foldl, List.map, WithTop.coe_lt_top,
      WithTop.coe_lt_coe, WithBot.coe_lt_coe, WithBot.bot_lt_coe]
    norm_num [distW]
    split_ifs with h
    · refine absurd h ?_
      simp only [← WithBot.coe_ofNat]
      rw [WithBot.coe_lt_coe]
      norm_num
    · rfl

/-- C6 amended: the initial PANIC selection (when `targetNode` is unset)
does use the far-flee selector iff `fleeAfterHide`, seeded with the nearest
remembered danger (or `lastDangerPos` on empty memory); but the stuck
re-target always uses the standard safe-node selector seeded with
`lastDangerPos`, regardless of `fleeAfterHide` and of the danger memory. -/
theorem panic_target_selection_amended {P : Type} (dist : P → P → ℚ) (pos : P)
    (cover nav : List P) (s : Agent P) :
    (s.targetNode = none →
      panicPickTarget dist pos cover nav s =
        if s.fleeAfterHide then
          getFarSafeNode dist
            (nearestDangerPos dist pos s.dangerMemory s.lastDangerPos)
            pos cover nav
        else
          getSafeNode dist
            (nearestDangerPos dist pos s.dangerMemory s.lastDangerPos)
            pos cover nav) ∧
    (s.dangerMemory ≠ [] →
      nearestDangerPos dist pos s.dangerMemory s.lastDangerPos ∈
        s.dangerMemory.map (fun d => d.pos) ∧
      ∀ d ∈ s.dangerMemory,
        dist pos (nearestDangerPos dist pos s.dangerMemory s.lastDangerPos) ≤
          dist pos d.pos) ∧
    (s.dangerMemory = [] →
      nearestDangerPos dist pos s.dangerMemory s.lastDangerPos =
        s.lastDangerPos) ∧
    (1 < s.stuckTime → s.targetNode ≠ none →
      panicRetarget dist pos cover nav s =
        getSafeNode dist s.lastDangerPos pos cover nav) := by
  refine ⟨?_, ?_, ?_, ?_⟩
  · intro h
    unfold panicPickTarget
    rw [h]
  · intro h
    have hne : s.dangerMemory.map (fun d => d.pos) ≠ [] := by
      simpa using h
    obtain ⟨hmem, hall⟩ := minLoop_top_mem (fun q => dist pos q)
      s.lastDangerPos (s.dangerMemory.map (fun d => d.pos)) hne
    refine ⟨hmem, fun d hd => ?_⟩
    exact hall d.pos (List.mem_map_of_mem _ hd)
  · intro h
    unfold nearestDangerPos
    rw [h]
    rfl
  · intro h1 h2
    unfold panicRetarget
    cases htn : s.targetNode with
    | none => exact absurd htn h2
    | some t => rw [if_pos h1]

/-- Witness for C6 (amended) at a concrete input. -/
theorem panic_target_selection_amended_witness :
    (panicAgentW.targetNode = none →
      panicPickTarget distW 0 [] [-200, 13] panicAgentW =
        if panicAgentW.fleeAfterHide then
          getFarSafeNode distW
            (nearestDangerPos distW 0 panicAgentW.dangerMemory
              panicAgentW.lastDangerPos) 0 [] [-200, 13]
        else
          getSafeNode distW
            (nearestDangerPos distW 0 panicAgentW.dangerMemory
              panicAgentW.lastDangerPos) 0 [] [-200, 13]) ∧
    (panicAgentW.dangerMemory ≠ [] →
      nearestDangerPos distW 0 panicAgentW.dangerMemory
        panicAgentW.lastDangerPos ∈
        panicAgentW.dangerMemory.map (fun d => d.pos) ∧
      ∀ d ∈ panicAgentW.dangerMemory,
        distW 0 (nearestDangerPos distW 0 panicAgentW.dangerMemory
          panicAgentW.lastDangerPos) ≤ distW 0 d.pos) ∧
    (panicAgentW.dangerMemory = [] →
      nearestDangerPos distW 0 panicAgentW.dangerMemory
        panicAgentW.lastDangerPos = panicAgentW.lastDangerPos) ∧
    (1 < panicAgentW.stuckTime → panicAgentW.targetNode ≠ none →
      panicRetarget distW 0 [] [-200, 13] panicAgentW =
        getSafeNode distW panicAgentW.lastDangerPos 0 [] [-200, 13]) :=
  panic_target_selection_amended distW 0 [] [-200, 13] panicAgentW

/-! ### C4 — transient entity registry -/

/-- Registry operations on the `physicsBodies` slot array (entries by entity
id, `none` = nulled slot).  `spawn` is the `physicsBodies.push(body)` of
`registerPhysicsObjectWithModel` (main.js:1932-1934), whose cleanup callback
captures the RAW index `physicsBodies.length` at spawn time; `expireAt i` is
that callback firing, `physicsBodies[index] = null` (main.js:1937-1942);
`compact` is the 5-second interval `physicsBodies.filter(b => b !== null)`
(main.js:1974-1977). -/
inductive RegOp : Type
  | spawn : ℕ → RegOp
  | expireAt : ℕ → RegOp
  | compact : RegOp
  deriving DecidableEq, Repr

/-- The JS write `arr[i] = null`: in range it nulls the slot; past the end it
grows the array to length `i + 1` (the hole entries and the written `null`
are all dropped by the compaction filter, so both are modelled as `none`). -/
def jsSetNull (l : List (Option ℕ)) (i : ℕ) : List (Option ℕ) :=
  if i < l.length then l.set i none
  else l ++ List.replicate (i + 1 - l.length) none

/-- One registry event applied to the backing array. -/
def regStep (l : List (Option ℕ)) : RegOp → List (Option ℕ)
  | .spawn e => l ++ [some e]
  | .expireAt i => jsSetNull l i
  | .compact => l.filter (fun b => b ≠ none)

/-- Running a timer schedule against an initially empty backing array. -/
def regRun (ops : List RegOp) : List (Option ℕ) := ops.foldl regStep []

/-- C4 failing schedule: entity 0 spawns (captured index 0, short lifetime),
entity 1 spawns (captured index 1, long lifetime); entity 0 expires; the
periodic compaction runs, shifting entity 1 to index 0; entity 1's expiry
then fires with its stale captured index 1, nulling nothing — entity 1's
entry survives every later compaction.  The same timers without the
interleaved compaction leave zero residual entries, isolating the stale
raw-index capture as the cause. -/
theorem stale_index_leaves_residual_slot :
    regRun [.spawn 0, .spawn 1, .expireAt 0, .compact, .expireAt 1, .compact] =
      [some 1] ∧
    regRun [.spawn 0, .spawn 1, .expireAt 0, .expireAt 1, .compact] = [] := by
  constructor <;> rfl

/-! ### C9 — empty NavNode set skips the tick -/

/-- A spatial-selector signature: danger position, agent position, cover
spots, nav nodes. -/
def Selector (P : Type) : Type := P → P → List P → List P → Option P

/-- `updateNPC` (main.js:995-1062): the guard `if (!navNodes.length) return;`
is the very first statement.  The remainder of the tick — stuck tracking,
panic-timer countdown, the per-status handler dispatch, which is the only
place the two spatial selectors can be invoked — is abstracted as `body`,
receiving the selectors explicitly so that independence from them is
expressible. -/
def updateNPC {P : Type} (body : Selector P → Selector P → Agent P → Agent P)
    (selSafe selFar : Selector P) (navNodes : List P) (s : Agent P) : Agent P :=
  if navNodes.length = 0 then s else body selSafe selFar s

/-- C9: with an empty NavNode set the whole per-tick update is skipped: the
agent record is returned unchanged — no field is modified — and the result
does not depend on the tick body or on either selector, so in particular
neither selector is invoked. -/
theorem empty_nav_skips_update {P : Type}
    (body body2 : Selector P → Selector P → Agent P → Agent P)
    (selSafe selFar selSafe2 selFar2 : Selector P) (navNodes : List P)
    (s : Agent P) (h : navNodes = []) :
    updateNPC body selSafe selFar navNodes s = s ∧
    updateNPC body selSafe selFar navNodes s =
      updateNPC body2 selSafe2 selFar2 navNodes s := by
  subst h
  exact ⟨rfl, rfl⟩

/-- Witness for C9 at a concrete input: the real selectors, a tick body that
would change the target if it ran, and an empty nav-node list. -/
theorem empty_nav_skips_update_witness :
    (([] : List ℚ) = []) ∧
    (updateNPC (fun sS _ a => { a with targetNode := sS a.lastDangerPos (0 : ℚ) [] [] })
        (getSafeNode distW) (getFarSafeNode distW) [] panicAgentW = panicAgentW ∧
     updateNPC (fun sS _ a => { a with targetNode := sS a.lastDangerPos (0 : ℚ) [] [] })
        (getSafeNode distW) (getFarSafeNode distW) [] panicAgentW =
      updateNPC (fun _ _ a => a) (getFarSafeNode distW) (getSafeNode distW) []
        panicAgentW) :=
  ⟨rfl,
    empty_nav_skips_update
      (fun sS _ a => { a with targetNode := sS a.lastDangerPos (0 : ℚ) [] [] })
      (fun _ _ a => a) (getSafeNode distW) (getFarSafeNode distW)
      (getFarSafeNode distW) (getSafeNode distW) [] panicAgentW rfl⟩

/-! ### C7 — pitch clamp invariant -/

/-- `THREE.MathUtils.clamp(x, lo, hi) = Math.max(lo, Math.min(hi, x))`. -/
def clampF {α : Type} [LinearOrder α] (x lo hi : α) : α := max lo (min hi x)

/-- `THREE.MathUtils.lerp(a, b, t) = a + (b - a) * t`. -/
def lerpF {α : Type} [Ring α] (a b t : α) : α := a + (b - a) * t

/-- One `safeLookAt` pitch update (main.js:968-975): the unclamped target
pitch `t` — `atan2(dy, horizontalDist)` of an arbitrary target point,
treated here as an arbitrary value, which covers every target point
including directly overhead and underfoot — is clamped to `[-bound, bound]`
(`bound = π/3` in the source) and the stored pitch is lerped toward the
clamped value by the smoothing factor `sm`. -/
def safeLookAtPitch {α : Type} [LinearOrderedField α] (bound pitch t sm : α) : α :=
  lerpF pitch (clampF t (-bound) bound) sm

/-- The stored pitch after a sequence of look-at calls `(t, sm)` starting
from the initial pitch 0 (main.js:374). -/
def pitchAfter {α : Type} [LinearOrderedField α] (bound : α)
    (steps : List (α × α)) : α :=
  steps.foldl (fun p q => safeLookAtPitch bound p q.1 q.2) 0

/-- The clamp lands in `[-bound, bound]` and lerping between two values in
that interval by a factor in `[0,1]` stays in it, so `|pitch| ≤ bound` is
preserved by every `safeLookAt` call. -/
theorem pitchFold_bounded {α : Type} [LinearOrderedField α] (bound : α)
    (hb : 0 ≤ bound) (steps : List (α × α))
    (hs : ∀ q ∈ steps, 0 ≤ q.2 ∧ q.2 ≤ 1) (p : α) (hp : |p| ≤ bound) :
    |steps.foldl (fun p q => safeLookAtPitch bound p q.1 q.2) p| ≤ bound := by
  induction steps generalizing p with
  | nil => exact hp
  | cons q t ih =>
    refine ih (fun x hx => hs x (List.mem_cons_of_mem _ hx)) _ ?_
    have hq := hs q (List.mem_cons_self _ _)
    have hc : |clampF q.1 (-bound) bound| ≤ bound := by
      rw [abs_le]
      exact ⟨le_max_left _ _, max_le (by linarith) (min_le_left _ _)⟩
    rw [abs_le] at hp hc ⊢
    unfold safeLookAtPitch lerpF
    dsimp only
    constructor
    · nlinarith [mul_nonneg (by linarith [hp.1] : (0 : α) ≤ p + bound)
        (by linarith [hq.2] : (0 : α) ≤ 1 - q.2),
        mul_nonneg
          (by linarith [hc.1] : (0 : α) ≤ clampF q.1 (-bound) bound + bound)
          hq.1]
    · nlinarith [mul_nonneg (by linarith [hp.2] : (0 : α) ≤ bound - p)
        (by linarith [hq.2] : (0 : α) ≤ 1 - q.2),
        mul_nonneg
          (by linarith [hc.2] : (0 : α) ≤ bound - clampF q.1 (-bound) bound)
          hq.1]

/-- C7: starting from pitch 0, after any sequence of look-at calls with
arbitrary target points (arbitrary unclamped target pitches, including the
overhead/underfoot ±π/2 values) and smoothing factors in `[0,1]`, the stored
pitch satisfies `|pitch| ≤ π/3` (60°). -/
theorem safeLookAt_pitch_within_60deg (steps : List (ℝ × ℝ))
    (hs : ∀ q ∈ steps, 0 ≤ q.2 ∧ q.2 ≤ 1) :
    |pitchAfter (Real.pi / 3) steps| ≤ Real.pi / 3 := by
  have hb : (0 : ℝ) ≤ Real.pi / 3 := by positivity
  exact pitchFold_bounded _ hb steps hs 0 (by simpa using hb)

/-- Witness for C7 at a concrete input: one overhead look (unclamped target
pitch 2 > π/2) with smoothing 1/2. -/
theorem safeLookAt_pitch_within_60deg_witness :
    (∀ q ∈ [((2 : ℝ), (1 : ℝ) / 2)], 0 ≤ q.2 ∧ q.2 ≤ 1) ∧
    |pitchAfter (Real.pi / 3) [((2 : ℝ), (1 : ℝ) / 2)]| ≤ Real.pi / 3 :=
  ⟨by
    intro q hq
    rw [List.mem_singleton] at hq
    subst hq
    norm_num,
   safeLookAt_pitch_within_60deg [((2 : ℝ), (1 : ℝ) / 2)] (by
    intro q hq
    rw [List.mem_singleton] at hq
    subst hq
    norm_num)⟩

end NPC3
